import Mathlib

/-!
Verification of the HVAC simulator analytical kernel.

Shallow embedding of the four core modules (jetPhysics, jetInteraction,
acoustics, comfort) over the reals. JavaScript numbers are modelled as
real numbers; a JavaScript value that may be null or undefined is an
Option; the short-circuit fallback of the source, which treats 0 and the
empty string as absent, is modelled by the jsOr helpers below.
-/

namespace HVAC

/-- A 3D vector, as the plain x y z records of the source. -/
structure Vec3 where
  x : ℝ
  y : ℝ
  z : ℝ

/-- JavaScript a or-else b on numbers: the fallback fires when a is absent or 0. -/
noncomputable def jsOrR (a : Option ℝ) (d : ℝ) : ℝ :=
  match a with
  | some v => if v = 0 then d else v
  | none => d

/-- JavaScript a or-else b on strings: the fallback fires when a is absent or empty. -/
def jsOrS (a : Option String) (d : String) : String :=
  match a with
  | some s => if s = "" then d else s
  | none => d

/-- JavaScript a or-else b where both sides are possibly-absent strings. -/
def jsOrOpt (a b : Option String) : Option String :=
  match a with
  | some s => if s = "" then b else some s
  | none => b

/-! ## diffuserDB -/

/-- The slice of a catalog type record that the kernel reads: the Coanda flag. -/
structure TypeInfo where
  coanda : Bool

/-- DIFFUSER_TYPES and EXHAUST_TYPES merged lookup, as getType does:
supply catalog first, then exhaust catalog, else null. Only the coanda
flag is carried, the single field the kernel consumes. -/
def getType (typeKey : String) : Option TypeInfo :=
  if typeKey = "swirl" then some ⟨true⟩
  else if typeKey = "plateValve" then some ⟨false⟩
  else if typeKey = "slot" then some ⟨true⟩
  else if typeKey = "nozzle" then some ⟨false⟩
  else if typeKey = "dqjSupply" then some ⟨true⟩
  else if typeKey = "dqjslcSupply" then some ⟨true⟩
  else if typeKey = "ceilingGrille" then some ⟨false⟩
  else if typeKey = "exhaustSwirl" then some ⟨false⟩
  else if typeKey = "exhaustPlateValve" then some ⟨false⟩
  else if typeKey = "dqjExhaust" then some ⟨false⟩
  else if typeKey = "exhaustSlot" then some ⟨false⟩
  else none

/-- A room-type record of ROOM_TYPES: the noise limit in dB(A) and the NC rating. -/
structure RoomTypeLimit where
  maxDbA : ℝ
  nc : ℝ

/-- The ROOM_TYPES table (noise limits per room category). -/
noncomputable def ROOM_TYPES (key : String) : Option RoomTypeLimit :=
  if key = "office" then some ⟨35, 30⟩
  else if key = "open_office" then some ⟨40, 35⟩
  else if key = "meeting_room" then some ⟨35, 30⟩
  else if key = "classroom" then some ⟨35, 30⟩
  else if key = "hospital" then some ⟨30, 25⟩
  else if key = "restaurant" then some ⟨45, 40⟩
  else if key = "auditorium" then some ⟨30, 25⟩
  else none

/-- getRoomTypeLimit: the room-type record, defaulting to the meeting_room
record when the key is unknown. -/
noncomputable def getRoomTypeLimit (roomTypeKey : String) : RoomTypeLimit :=
  (ROOM_TYPES roomTypeKey).getD ⟨35, 30⟩

/-- A catalog size record. Fields the source reads through a truthiness
fallback are Options; the rest are plain numbers. -/
structure SizeData where
  d0 : Option ℝ := none
  aEff : ℝ := 0
  slotCount : ℝ := 0
  slotWidth : ℝ := 0
  lengthDefault : ℝ := 0
  lwRef : ℝ := 0
  vFlowRef : ℝ := 1
  k1 : ℝ := 0
  halfAngleDeg : Option ℝ := none
  kDrall : Option ℝ := none

/-- computeSlotAeff: dynamic effective area of a slot diffuser. -/
noncomputable def computeSlotAeff (sizeData : SizeData) (slotLengthMm : ℝ) : ℝ :=
  sizeData.slotCount * sizeData.slotWidth * (slotLengthMm / 1000)

/-- getEffectiveArea: dynamic for slot types, fixed from the catalog otherwise. -/
noncomputable def getEffectiveArea (typeKey : String) (sizeData : SizeData)
    (slotLengthMm : Option ℝ) : ℝ :=
  if typeKey = "slot" ∨ typeKey = "exhaustSlot" then
    computeSlotAeff sizeData (jsOrR slotLengthMm sizeData.lengthDefault)
  else sizeData.aEff

/-! ## jetPhysics -/

/-- An outlet configuration, the input of calculateOutlet and, through the
entry records, of evaluateComfort. -/
structure Outlet where
  typeKey : String
  sizeData : SizeData
  volumeFlow : ℝ
  supplyTemp : ℝ := 0
  mounting : String := "ceiling"
  slotLength : Option ℝ := none
  slotDirection : Option String := none
  outletCategory : Option String := none
  rotation : ℝ := 0
  position3D : Vec3 := ⟨0, 0, 0⟩

/-- A room configuration. -/
structure Room where
  length : ℝ
  width : ℝ
  height : ℝ
  temperature : ℝ
  roomType : String := "office"

/-- The JetResult record produced by calculateOutlet. -/
structure JetResult where
  outletCategory : String
  exitVelocity : ℝ
  throwDistance : ℝ
  throwDistanceFree : ℝ
  throwDistanceCoanda : Option ℝ
  coreLength : ℝ
  halfAngle : ℝ
  archimedesNumber : ℝ
  detachmentPoint : Option ℝ
  soundPowerLevel : Option ℝ
  soundPressureAt3m : ℝ
  pressureDrop : ℝ
  maxVelocityOccupied : ℝ
  effectiveArea : ℝ
  velocityAtDistance : ℝ → ℝ
  slotDirection : Option String

/-- Pressure loss coefficient per type (getZeta). -/
noncomputable def getZeta (typeKey : String) : ℝ :=
  if typeKey = "swirl" then 2.0
  else if typeKey = "plateValve" then 2.5
  else if typeKey = "slot" then 1.8
  else if typeKey = "nozzle" then 1.5
  else if typeKey = "ceilingGrille" then 2.0
  else if typeKey = "exhaustSwirl" then 2.0
  else if typeKey = "exhaustPlateValve" then 2.5
  else if typeKey = "exhaustSlot" then 1.8
  else if typeKey = "dqjSupply" then 2.2
  else if typeKey = "dqjExhaust" then 2.0
  else if typeKey = "dqjslcSupply" then 2.5
  else 2.0

/-- createVelocityFunction: the distance-to-velocity decay closure stored in
the JetResult. Inverse-square-root law for the planar slot jet, linear
inverse for every other family; flat at v0 inside the core length. -/
noncomputable def createVelocityFunction (typeKey : String) (sizeData : SizeData)
    (v0 d0 k1 coreLength : ℝ) : ℝ → ℝ :=
  if typeKey = "slot" then
    fun x =>
      if x ≤ 0 then v0
      else if x ≤ coreLength then v0
      else k1 * v0 * Real.sqrt (sizeData.slotWidth / x)
  else
    fun x =>
      if x ≤ 0 then v0
      else if x ≤ coreLength then v0
      else k1 * v0 * d0 / x

/-- throwEstimate: default throw used by the swirl occupied-zone heuristic. -/
noncomputable def throwEstimate (v0 d0 k1 : ℝ) : ℝ :=
  k1 * v0 * d0 / 0.20

/-- calcMaxVelocityInOccupied: the per-terminal occupied-zone velocity heuristic. -/
noncomputable def calcMaxVelocityInOccupied (typeKey : String) (sizeData : SizeData)
    (v0 d0 k1 halfAngle roomHeight : ℝ) (detachmentPoint : Option ℝ)
    (slotDirection : Option String) : ℝ :=
  if typeKey = "swirl" ∨ typeKey = "dqjSupply" ∨ typeKey = "dqjslcSupply" then
    let dropHeight := roomHeight - 1.8
    if dropHeight ≤ 0 then v0
    else
      let kDrall := jsOrR sizeData.kDrall 0.9
      let effectiveR := max 1.0 (jsOrR detachmentPoint (throwEstimate v0 d0 k1))
      let vAtR := k1 * v0 * d0 / effectiveR * kDrall
      let sigmaAtR := 0.1 * effectiveR
      let vInOccupied :=
        vAtR * Real.exp (-(dropHeight * dropHeight) / (2 * sigmaAtR * sigmaAtR))
      max 0 vInOccupied
  else if typeKey = "nozzle" then
    let distToOccupied :=
      if roomHeight > 3 then (roomHeight - 1.5) / Real.sin (jsOrR (some halfAngle) 0.1)
      else 3
    createVelocityFunction typeKey sizeData v0 d0 k1 (5 * d0) distToOccupied
  else if typeKey = "plateValve" then
    let dropHeight := roomHeight - 1.8
    if dropHeight ≤ 0 then v0
    else createVelocityFunction typeKey sizeData v0 d0 k1 (5 * d0) dropHeight
  else if typeKey = "slot" then
    let dropHeight := roomHeight - 1.8
    if dropHeight ≤ 0 then v0
    else
      let s := sizeData.slotWidth
      if slotDirection = some "vertical" then
        k1 * v0 * Real.sqrt (s / max dropHeight 0.1)
      else
        k1 * v0 * Real.sqrt (s / max dropHeight 0.1) * 0.5
  else 0

/-- The Coanda-attachment condition of calculateOutlet: catalog flag set,
ceiling mounting, and not a vertically discharging slot. -/
def hasCoanda (o : Outlet) : Bool :=
  (match getType o.typeKey with
   | some ti => ti.coanda
   | none => false)
  && (o.mounting == "ceiling")
  && !((o.typeKey == "slot") && (o.slotDirection == some "vertical"))

/-- Effective area of an outlet (aEff in calculateOutlet). -/
noncomputable def outletAeff (o : Outlet) : ℝ :=
  getEffectiveArea o.typeKey o.sizeData o.slotLength

/-- Exit velocity of an outlet (v0 in calculateOutlet): flow in cubic
metres per second over the effective area. -/
noncomputable def outletV0 (o : Outlet) : ℝ :=
  (o.volumeFlow / 3600) / outletAeff o

/-- Reference length of an outlet (d0 in calculateOutlet): from the
catalog, or the equivalent-area diameter when absent. -/
noncomputable def outletD0 (o : Outlet) : ℝ :=
  jsOrR o.sizeData.d0 (Real.sqrt (4 * outletAeff o / Real.pi))

/-- calculateOutlet: the single-jet analytical model. The exhaust branch
computes a suction reach and forces the occupied-zone estimate to zero;
the supply branch computes throw, Coanda extension, buoyant detachment,
and the occupied-zone heuristic. Both share the sound, pressure-drop and
decay-function formulas. -/
noncomputable def calculateOutlet (o : Outlet) (room : Room) : JetResult :=
  let aEff := outletAeff o
  let v0 := outletV0 o
  let d0 := outletD0 o
  let coreLength := 5 * d0
  let k1 := o.sizeData.k1
  let halfAngleRad := jsOrR o.sizeData.halfAngleDeg 20 * Real.pi / 180
  if o.outletCategory = some "exhaust" then
    let suctionReach := k1 * v0 * d0 / 0.20
    let lwA := o.sizeData.lwRef + 50 * Real.logb 10 (o.volumeFlow / o.sizeData.vFlowRef)
    let lpAt3m := lwA - 20 * Real.logb 10 3 - 8
    let pressureDrop := 0.5 * 1.2 * v0 * v0 * getZeta o.typeKey
    { outletCategory := "exhaust"
      exitVelocity := v0
      throwDistance := suctionReach
      throwDistanceFree := suctionReach
      throwDistanceCoanda := none
      coreLength := coreLength
      halfAngle := halfAngleRad
      archimedesNumber := 0
      detachmentPoint := none
      soundPowerLevel := some lwA
      soundPressureAt3m := lpAt3m
      pressureDrop := pressureDrop
      maxVelocityOccupied := 0
      effectiveArea := aEff
      velocityAtDistance := createVelocityFunction o.typeKey o.sizeData v0 d0 k1 coreLength
      slotDirection := none }
  else
    let throwDistanceFree :=
      if o.typeKey = "slot" then o.sizeData.slotWidth * (k1 * v0 / 0.20) ^ 2
      else k1 * v0 * d0 / 0.20
    let hasC := hasCoanda o
    let throwDistanceCoanda :=
      if hasC then Real.sqrt 2 * throwDistanceFree else throwDistanceFree
    let throwDistance := if hasC then throwDistanceCoanda else throwDistanceFree
    let deltaT := |room.temperature - o.supplyTemp|
    let Ar :=
      if deltaT > 0.1 then
        9.81 * deltaT * d0 / ((room.temperature + 273.15) * v0 * v0)
      else 0
    let detachmentPoint :=
      if hasC = true ∧ Ar > 0.01 ∧ o.supplyTemp < room.temperature then
        some (min (0.5 * throwDistanceCoanda / Real.sqrt Ar) throwDistanceCoanda)
      else none
    let lwA := o.sizeData.lwRef + 50 * Real.logb 10 (o.volumeFlow / o.sizeData.vFlowRef)
    let lpAt3m := lwA - 20 * Real.logb 10 3 - 8
    let pressureDrop := 0.5 * 1.2 * v0 * v0 * getZeta o.typeKey
    let mvo := calcMaxVelocityInOccupied o.typeKey o.sizeData v0 d0 k1 halfAngleRad
      room.height detachmentPoint o.slotDirection
    { outletCategory := "supply"
      exitVelocity := v0
      throwDistance := throwDistance
      throwDistanceFree := throwDistanceFree
      throwDistanceCoanda := if hasC then some throwDistanceCoanda else none
      coreLength := coreLength
      halfAngle := halfAngleRad
      archimedesNumber := Ar
      detachmentPoint := detachmentPoint
      soundPowerLevel := some lwA
      soundPressureAt3m := lpAt3m
      pressureDrop := pressureDrop
      maxVelocityOccupied := mvo
      effectiveArea := aEff
      velocityAtDistance := createVelocityFunction o.typeKey o.sizeData v0 d0 k1 coreLength
      slotDirection := o.slotDirection }

/-- sumSoundLevels (jetPhysics): energetic summation of dB(A) levels,
returning 0 on an empty list. -/
noncomputable def sumSoundLevels (levels : List ℝ) : ℝ :=
  if levels.length = 0 then 0
  else 10 * Real.logb 10 (levels.foldl (fun acc l => acc + (10 : ℝ) ^ (l / 10)) 0)

/-! ## jetInteraction -/

/-- The outlet-data projection built by evaluateComfort for the vector
field, and consumed by getVelocityVectorAt and the heatmap sampler. -/
structure OutletData where
  position3D : Vec3
  jetResult : Option JetResult
  typeKey : String := "swirl"
  rotation : ℝ := 0
  outletCategory : String := "supply"
  mounting : String := "ceiling"
  slotDirection : Option String := none

/-- The helper that scales a direction to unit length, falling back to
straight down for a degenerate vector. -/
noncomputable def normalize3 (x y z : ℝ) : Vec3 :=
  let len := Real.sqrt (x * x + y * y + z * z)
  if len < 0.001 then ⟨0, -1, 0⟩
  else ⟨x / len, y / len, z / len⟩

/-- The per-type jet direction rule of jetInteraction. dx, dy, dz are the
offset from the outlet to the query point; horizontalDist and totalDist
the distances the caller computed from them. -/
noncomputable def getJetDirection (o : OutletData) (dx dy dz horizontalDist totalDist : ℝ) :
    Vec3 :=
  if horizontalDist < 0.01 ∧ |dy| > 0.01 then
    ⟨0, if dy > 0 then 1 else -1, 0⟩
  else
    let hx := if horizontalDist > 0.01 then dx / horizontalDist else 0
    let hz := if horizontalDist > 0.01 then dz / horizontalDist else 0
    if o.typeKey = "swirl" ∨ o.typeKey = "exhaustSwirl" ∨ o.typeKey = "dqjSupply" ∨
        o.typeKey = "dqjExhaust" ∨ o.typeKey = "dqjslcSupply" then
      normalize3 hx (-0.15) hz
    else if o.typeKey = "slot" ∨ o.typeKey = "exhaustSlot" then
      let slotDir := jsOrS o.slotDirection "bidirectional"
      if slotDir = "vertical" then ⟨0, -1, 0⟩
      else if slotDir = "unidirectional" then
        normalize3 (Real.sin o.rotation) (-0.1) (Real.cos o.rotation)
      else
        let perpX := -Real.sin o.rotation
        let perpZ := Real.cos o.rotation
        let projDist := dx * perpX + dz * perpZ
        let sign : ℝ := if projDist ≥ 0 then 1 else -1
        normalize3 (sign * perpX) (-0.1) (sign * perpZ)
    else if o.typeKey = "nozzle" then
      normalize3 (hx * 0.5) (-0.85) (hz * 0.5)
    else if o.typeKey = "plateValve" ∨ o.typeKey = "exhaustPlateValve" then
      normalize3 (hx * 0.4) (-0.9) (hz * 0.4)
    else if o.typeKey = "ceilingGrille" then
      normalize3 (hx * 0.2) (-0.95) (hz * 0.2)
    else
      normalize3 (dx / totalDist) (dy / totalDist) (dz / totalDist)

/-- One outlet's summand inside the getVelocityVectorAt loop: the zero
vector when the loop skips the outlet (missing result, degenerate
distance, or speed below the numerical floor), the signed directional
contribution otherwise. -/
noncomputable def outletContribution (x y z : ℝ) (o : OutletData) : Vec3 :=
  match o.jetResult with
  | none => ⟨0, 0, 0⟩
  | some jr =>
    let dx := x - o.position3D.x
    let dy := y - o.position3D.y
    let dz := z - o.position3D.z
    let horizontalDist := Real.sqrt (dx * dx + dz * dz)
    let verticalDist := |dy|
    let totalDist := Real.sqrt (horizontalDist * horizontalDist + dy * dy)
    if totalDist < 0.01 then ⟨0, 0, 0⟩
    else
      let isExhaust := o.outletCategory = "exhaust"
      let speed0 := jr.velocityAtDistance totalDist
      let speed :=
        if ¬isExhaust ∧ o.mounting = "ceiling" ∧ horizontalDist > 0.1 then
          speed0 * Real.exp (-(verticalDist * verticalDist) /
            (2 * (0.12 * horizontalDist) * (0.12 * horizontalDist)))
        else speed0
      if speed < 0.001 then ⟨0, 0, 0⟩
      else
        let dir := getJetDirection o dx dy dz horizontalDist totalDist
        if isExhaust then ⟨-(dir.x * speed), -(dir.y * speed), -(dir.z * speed)⟩
        else ⟨dir.x * speed, dir.y * speed, dir.z * speed⟩

/-- The velocity vector and its magnitude returned by getVelocityVectorAt. -/
structure VelocityVector where
  vx : ℝ
  vy : ℝ
  vz : ℝ
  magnitude : ℝ

/-- getVelocityVectorAt: vector superposition of all outlet contributions. -/
noncomputable def getVelocityVectorAt (x y z : ℝ) (outlets : List OutletData) :
    VelocityVector :=
  let v := outlets.foldl
    (fun (acc : ℝ × ℝ × ℝ) o =>
      let c := outletContribution x y z o
      (acc.1 + c.x, acc.2.1 + c.y, acc.2.2 + c.z))
    ((0 : ℝ), (0 : ℝ), (0 : ℝ))
  { vx := v.1, vy := v.2.1, vz := v.2.2
    magnitude := Real.sqrt (v.1 * v.1 + v.2.1 * v.2.1 + v.2.2 * v.2.2) }

/-- getVelocityMagnitudeAt: magnitude-only wrapper over getVelocityVectorAt. -/
noncomputable def getVelocityMagnitudeAt (x y z : ℝ) (outlets : List OutletData) : ℝ :=
  (getVelocityVectorAt x y z outlets).magnitude

/-! ## acoustics -/

/-- sumLevels (acoustics): energetic summation of dB(A) levels, returning
negative infinity on an empty list. The extended reals model the
JavaScript minus-Infinity sentinel. -/
noncomputable def sumLevels (levels : List ℝ) : EReal :=
  if levels.length = 0 then ⊥
  else ((10 * Real.logb 10 (levels.foldl (fun acc l => acc + (10 : ℝ) ^ (l / 10)) 0) : ℝ) : EReal)

/-- One cell of the velocity heatmap: the maximum over outlets of the
decayed speed at the cell's point, with a vertical Gaussian attenuation
for every ceiling-mounted outlet beyond 0.1 m horizontal distance. -/
noncomputable def heatmapCellValue (outlets : List OutletData) (room : Room)
    (gridSpacing planeHeight : ℝ) (ix iz : ℕ) : ℝ :=
  let worldX := -(room.length / 2) + (ix : ℝ) * gridSpacing
  let worldZ := -(room.width / 2) + (iz : ℝ) * gridSpacing
  outlets.foldl
    (fun maxV o =>
      let dx := worldX - o.position3D.x
      let dz := worldZ - o.position3D.z
      let horizontalDist := Real.sqrt (dx * dx + dz * dz)
      let verticalDist := |planeHeight - o.position3D.y|
      let totalDist := Real.sqrt (horizontalDist * horizontalDist + verticalDist * verticalDist)
      match o.jetResult with
      | none => maxV
      | some jr =>
        let v0 := jr.velocityAtDistance totalDist
        let v :=
          if o.mounting = "ceiling" ∧ horizontalDist > 0.1 then
            v0 * Real.exp (-(verticalDist * verticalDist) /
              (2 * (0.12 * horizontalDist) * (0.12 * horizontalDist)))
          else v0
        max maxV v)
    0

/-- The record returned by generateVelocityHeatmap. The min and max
trackers of the source, pure presentation data, are not carried. -/
structure VelocityHeatmap where
  grid : List ℝ
  cols : ℕ
  rows : ℕ
  gridSpacing : ℝ
  originX : ℝ
  originZ : ℝ
  planeHeight : ℝ

/-- generateVelocityHeatmap: samples the plane row by row; the cell at
column ix of row iz sits at index iz * cols + ix of the flat grid. -/
noncomputable def generateVelocityHeatmap (outlets : List OutletData) (room : Room)
    (gridSpacing planeHeight : ℝ) : VelocityHeatmap :=
  let cols := (⌈room.length / gridSpacing⌉).toNat + 1
  let rows := (⌈room.width / gridSpacing⌉).toNat + 1
  { grid := (List.range rows).flatMap
      (fun iz => (List.range cols).map
        (fun ix => heatmapCellValue outlets room gridSpacing planeHeight ix iz))
    cols := cols
    rows := rows
    gridSpacing := gridSpacing
    originX := -(room.length / 2)
    originZ := -(room.width / 2)
    planeHeight := planeHeight }

/-! ## comfort -/

/-- calcDraughtRate: the ISO 7730 draught-rate formula, zero at or below
0.05 m/s and clamped to the range 0 to 100. -/
noncomputable def calcDraughtRate (tLocal v tu : ℝ) : ℝ :=
  if v ≤ 0.05 then 0
  else
    max 0 (min 100
      ((34 - tLocal) * (v - 0.05) ^ (0.62 : ℝ) * (0.37 * v * tu + 3.14)))

/-- getVelocityCategory: the three-tier velocity classification. -/
noncomputable def getVelocityCategory (maxV : ℝ) : String :=
  if maxV ≤ 0.15 then "I"
  else if maxV ≤ 0.20 then "II"
  else if maxV ≤ 0.25 then "III"
  else "FAIL"

/-- An element of the outlets array passed to evaluateComfort: a jetResult
and outlet pair, with the loose fallback fields the source also probes. -/
structure Entry where
  outlet : Option Outlet := none
  jetResult : Option JetResult := none
  position3D : Option Vec3 := none
  typeKey : Option String := none

/-- The category probe of the supply filter in evaluateComfort: the
record's category, or else the jet result's. -/
def entryCategory (o : Entry) : Option String :=
  jsOrOpt (o.outlet.bind Outlet.outletCategory) (o.jetResult.map JetResult.outletCategory)

/-- The supply filter of evaluateComfort: entries whose category probe is
not exhaust and that carry a jet result. -/
def supplyOutletsOf (outlets : List Entry) : List Entry :=
  outlets.filter (fun o => !(entryCategory o == some "exhaust") && o.jetResult.isSome)

/-- The sound levels evaluateComfort collects: every present
soundPowerLevel of every entry with a jet result, exhaust included. -/
def soundLevelsOf (outlets : List Entry) : List ℝ :=
  outlets.filterMap (fun o => o.jetResult.bind JetResult.soundPowerLevel)

/-- The outlet-data array evaluateComfort hands to the vector field: every
entry with a jet result, exhaust included, with the source's fallback
chains for each field. -/
noncomputable def outletDataOf (outlets : List Entry) : List OutletData :=
  (outlets.filter (fun o => o.jetResult.isSome)).map (fun o =>
    { position3D :=
        (match o.outlet with
         | some r => some r.position3D
         | none => o.position3D).getD ⟨0, 0, 0⟩
      jetResult := o.jetResult
      typeKey := jsOrS (jsOrOpt (o.outlet.map Outlet.typeKey) o.typeKey) "swirl"
      rotation := jsOrR (o.outlet.map Outlet.rotation) 0
      outletCategory := jsOrS (entryCategory o) "supply"
      mounting := jsOrS (o.outlet.map Outlet.mounting) "ceiling"
      slotDirection := jsOrOpt (o.outlet.bind Outlet.slotDirection) none })

/-- The 10 by 10 by 3 occupied-zone sample grid of evaluateComfort: cell
centres along length and width at the three reference heights, in the
source's loop order (height outermost, then width, then length). -/
noncomputable def occupiedGridPoints (room : Room) : List (ℝ × ℝ × ℝ) :=
  [(0.1 : ℝ), 1.0, 1.8].flatMap (fun wy =>
    (List.range 10).flatMap (fun iz : ℕ =>
      (List.range 10).map (fun ix : ℕ =>
        (-(room.length / 2) + ((ix : ℝ) + 0.5) * (room.length / 10),
         wy,
         -(room.width / 2) + ((iz : ℝ) + 0.5) * (room.width / 10)))))

/-- The branch condition of evaluateComfort for the grid path: more than
one supply entry, and truthy room length and width. -/
def usesGridPath (outlets : List Entry) (room : Room) : Prop :=
  1 < (supplyOutletsOf outlets).length ∧ room.length ≠ 0 ∧ room.width ≠ 0

noncomputable instance (outlets : List Entry) (room : Room) :
    Decidable (usesGridPath outlets room) := by
  unfold usesGridPath
  infer_instance

/-- Whether an entry is an exhaust terminal, as the fallback loop of
evaluateComfort tests it: the record's category or the jet result's
category equals exhaust. -/
def isExhaustEntry (o : Entry) : Bool :=
  (o.outlet.bind Outlet.outletCategory == some "exhaust") ||
  (o.jetResult.map JetResult.outletCategory == some "exhaust")

/-- The worst-case occupied-zone velocity of evaluateComfort: the running
maximum over the sample grid on the grid path, the running maximum of the
per-terminal estimates of the non-exhaust entries otherwise. -/
noncomputable def worstCaseVelocity (outlets : List Entry) (room : Room) : ℝ :=
  if usesGridPath outlets room then
    let outletData := outletDataOf outlets
    (occupiedGridPoints room).foldl
      (fun m p =>
        let v := getVelocityMagnitudeAt p.1 p.2.1 p.2.2 outletData
        if v > m then v else m)
      0
  else
    outlets.foldl
      (fun m o =>
        match o.jetResult with
        | none => m
        | some jr =>
          if ¬isExhaustEntry o = true ∧ jr.maxVelocityOccupied > m then
            jr.maxVelocityOccupied
          else m)
      0

/-- The summed sound level of evaluateComfort: energetic sum of the
collected levels, 0 when none were collected. -/
noncomputable def totalSoundLevelOf (outlets : List Entry) : ℝ :=
  let levels := soundLevelsOf outlets
  if levels.length > 0 then
    10 * Real.logb 10 (levels.foldl (fun s l => s + (10 : ℝ) ^ (l / 10)) 0)
  else 0

/-- The ComfortResult record of evaluateComfort. -/
structure ComfortResult where
  maxVelocityOccupied : ℝ
  velocityCategory : String
  draughtRate : ℝ
  draughtRateOk : Prop
  totalSoundLevel : ℝ
  soundLimit : ℝ
  soundCompliant : Prop
  soundMargin : ℝ
  overallCategory : String

/-- evaluateComfort: combines the worst-case velocity, the draught rate at
40 percent turbulence intensity, the summed sound level against the
room-category limit, and the overall tier. -/
noncomputable def evaluateComfort (outlets : List Entry) (room : Room) : ComfortResult :=
  let roomLimit := getRoomTypeLimit room.roomType
  let maxVelocityOccupied := worstCaseVelocity outlets room
  let totalSoundLevel := totalSoundLevelOf outlets
  let draughtRate := calcDraughtRate room.temperature maxVelocityOccupied 40
  let velocityCategory := getVelocityCategory maxVelocityOccupied
  let soundCompliant := totalSoundLevel ≤ roomLimit.maxDbA
  let soundMargin := roomLimit.maxDbA - totalSoundLevel
  let overallCategory :=
    if ¬soundCompliant ∨ velocityCategory = "FAIL" then "FAIL" else velocityCategory
  { maxVelocityOccupied := maxVelocityOccupied
    velocityCategory := velocityCategory
    draughtRate := draughtRate
    draughtRateOk := draughtRate < 15
    totalSoundLevel := totalSoundLevel
    soundLimit := roomLimit.maxDbA
    soundCompliant := soundCompliant
    soundMargin := soundMargin
    overallCategory := overallCategory }

@[simp]
theorem evaluateComfort_maxVelocityOccupied (outlets : List Entry) (room : Room) :
    (evaluateComfort outlets room).maxVelocityOccupied = worstCaseVelocity outlets room := rfl

@[simp]
theorem evaluateComfort_totalSoundLevel (outlets : List Entry) (room : Room) :
    (evaluateComfort outlets room).totalSoundLevel = totalSoundLevelOf outlets := rfl

@[simp]
theorem evaluateComfort_soundLimit (outlets : List Entry) (room : Room) :
    (evaluateComfort outlets room).soundLimit = (getRoomTypeLimit room.roomType).maxDbA := rfl

/-! ## Generic list lemmas -/

theorem foldl_add_map (f : ℝ → ℝ) (l : List ℝ) :
    ∀ a : ℝ, l.foldl (fun acc x => acc + f x) a = a + (l.map f).sum := by
  induction l with
  | nil => simp
  | cons x xs ih => intro a; simp [ih (a + f x), add_assoc]

/-- The true maximum of a list of reals, 0 for the empty list. -/
noncomputable def specMax : List ℝ → ℝ
  | [] => 0
  | x :: xs => xs.foldl max x

theorem le_foldl_max (l : List ℝ) : ∀ a : ℝ, a ≤ l.foldl max a := by
  induction l with
  | nil => intro a; simp
  | cons x xs ih => intro a; exact le_trans (le_max_left a x) (ih (max a x))

theorem foldl_max_comm (l : List ℝ) : ∀ a b : ℝ,
    l.foldl max (max a b) = max a (l.foldl max b) := by
  induction l with
  | nil => intro a b; rfl
  | cons x xs ih =>
    intro a b
    simp only [List.foldl_cons]
    rw [max_assoc, ih]

theorem foldl_max_zero_eq_specMax (l : List ℝ) (h : ∀ y ∈ l, 0 ≤ y) :
    l.foldl max 0 = specMax l := by
  cases l with
  | nil => rfl
  | cons x xs =>
    simp only [List.foldl_cons, specMax]
    rw [foldl_max_comm]
    have hx : (0 : ℝ) ≤ x := h x (List.mem_cons_self x xs)
    exact max_eq_right (le_trans hx (le_foldl_max xs x))

theorem foldl_ifmax_eq {α : Type} (f : α → ℝ) (l : List α) : ∀ a : ℝ,
    l.foldl (fun m x => if f x > m then f x else m) a
      = l.foldl (fun m x => max m (f x)) a := by
  induction l with
  | nil => intro a; rfl
  | cons x xs ih =>
    intro a
    simp only [List.foldl_cons]
    rw [show (if f x > a then f x else a) = max a (f x) by
      rcases lt_or_le a (f x) with h | h
      · rw [if_pos h]; exact (max_eq_right h.le).symm
      · rw [if_neg (not_lt.2 h)]; exact (max_eq_left h).symm]
    exact ih (max a (f x))

theorem foldl_ifmax_const {α : Type} (f : α → ℝ) (c : ℝ) (l : List α) :
    (∀ x ∈ l, f x = c) → l ≠ [] → ∀ a : ℝ,
      l.foldl (fun m x => if f x > m then f x else m) a = max a c := by
  induction l with
  | nil => intro _ h; exact absurd rfl h
  | cons x xs ih =>
    intro hall _ a
    have hx : f x = c := hall x (List.mem_cons_self x xs)
    rcases eq_or_ne xs [] with hxs | hxs
    · subst hxs
      simp only [List.foldl_cons, List.foldl_nil, hx]
      rcases lt_or_le a c with h | h
      · rw [if_pos h]; exact (max_eq_right h.le).symm
      · rw [if_neg (not_lt.2 h)]; exact (max_eq_left h).symm
    · simp only [List.foldl_cons, hx]
      rw [ih (fun y hy => hall y (List.mem_cons_of_mem _ hy)) hxs]
      rcases lt_or_le a c with h | h
      · rw [if_pos h, max_self]; exact (max_eq_right h.le).symm
      · rw [if_neg (not_lt.2 h)]

theorem getVelocityMagnitudeAt_nonneg (x y z : ℝ) (outlets : List OutletData) :
    0 ≤ getVelocityMagnitudeAt x y z outlets :=
  Real.sqrt_nonneg _

/-! ## Claim C6: the draught-rate formula -/

/-- C6: calcDraughtRate is 0 whenever the velocity is at most 0.05 m/s;
above that it is the ISO 7730 product clamped to the range 0 to 100; and
for positive velocity and turbulence intensity the result always lies in
the range 0 to 100, whatever the temperature. -/
theorem draughtRate_spec (t v tu : ℝ) :
    (v ≤ 0.05 → calcDraughtRate t v tu = 0) ∧
    (0.05 < v → calcDraughtRate t v tu =
      max 0 (min 100 ((34 - t) * (v - 0.05) ^ (0.62 : ℝ) * (0.37 * v * tu + 3.14)))) ∧
    (0 < v → 0 < tu → 0 ≤ calcDraughtRate t v tu ∧ calcDraughtRate t v tu ≤ 100) := by
  refine ⟨fun h => by simp [calcDraughtRate, h],
    fun h => by simp [calcDraughtRate, not_le.2 h], fun hv htu => ?_⟩
  unfold calcDraughtRate
  split_ifs with h
  · norm_num
  · exact ⟨le_max_left 0 _, max_le (by norm_num) (min_le_left _ _)⟩

/-- Witness for C6 at temperature 24, velocity 0.2, turbulence 40. -/
theorem draughtRate_witness :
    0 ≤ calcDraughtRate 24 0.2 40 ∧ calcDraughtRate 24 0.2 40 ≤ 100 :=
  (draughtRate_spec 24 0.2 40).2.2 (by norm_num) (by norm_num)

/-! ## Claim C7: the two sound-level summers -/

/-- C7: the jet-acoustics summer returns 0 on the empty list, the
room-acoustics summer returns bottom (minus infinity); on every non-empty
list both compute 10 times the base-10 logarithm of the summed
per-level powers. -/
theorem soundSummers_spec :
    sumSoundLevels [] = 0 ∧ sumLevels [] = ⊥ ∧
    ∀ levels : List ℝ, levels ≠ [] →
      sumLevels levels = ((sumSoundLevels levels : ℝ) : EReal) ∧
      sumSoundLevels levels =
        10 * Real.logb 10 ((levels.map (fun l => (10 : ℝ) ^ (l / 10))).sum) := by
  refine ⟨by simp [sumSoundLevels], by simp [sumLevels], fun levels h => ?_⟩
  have hlen : ¬levels.length = 0 := by simpa using h
  refine ⟨by simp [sumLevels, sumSoundLevels, hlen], ?_⟩
  simp only [sumSoundLevels, hlen, if_false]
  rw [foldl_add_map (fun l => (10 : ℝ) ^ (l / 10)) levels 0, zero_add]

/-- Witness for C7: both sentinels, and agreement on a one-element list. -/
theorem soundSummers_witness :
    sumSoundLevels [] = 0 ∧ sumLevels [] = ⊥ ∧
    sumLevels [(50 : ℝ)] = ((sumSoundLevels [(50 : ℝ)] : ℝ) : EReal) :=
  ⟨soundSummers_spec.1, soundSummers_spec.2.1,
    (soundSummers_spec.2.2 [(50 : ℝ)] (by simp)).1⟩

/-! ## Claim C9: unknown room-type keys default to the meeting-room limit -/

/-- The seven room-category keys of the ROOM_TYPES table. -/
def knownRoomTypeKeys : List String :=
  ["office", "open_office", "meeting_room", "classroom", "hospital", "restaurant",
   "auditorium"]

/-- C9: for a key outside the table, getRoomTypeLimit yields the
meeting-room record with its 35 dB(A) limit rather than failing, and
evaluateComfort consequently reports a 35 dB(A) sound limit for a room
with an unknown category key. -/
theorem roomTypeLimit_default (k : String) (h : k ∉ knownRoomTypeKeys) :
    getRoomTypeLimit k = ⟨35, 30⟩ ∧ (getRoomTypeLimit k).maxDbA = 35 ∧
    ∀ (outlets : List Entry) (room : Room), room.roomType = k →
      (evaluateComfort outlets room).soundLimit = 35 := by
  simp only [knownRoomTypeKeys, List.mem_cons, List.not_mem_nil, or_false, not_or] at h
  obtain ⟨h1, h2, h3, h4, h5, h6, h7⟩ := h
  have hR : ROOM_TYPES k = none := by
    simp [ROOM_TYPES, h1, h2, h3, h4, h5, h6, h7]
  refine ⟨by simp [getRoomTypeLimit, hR], by simp [getRoomTypeLimit, hR], ?_⟩
  intro outlets room hk
  rw [evaluateComfort_soundLimit, hk]
  simp [getRoomTypeLimit, hR]

/-- Witness for C9 at the unknown key garage. -/
theorem roomTypeLimit_default_witness :
    "garage" ∉ knownRoomTypeKeys ∧ getRoomTypeLimit "garage" = ⟨35, 30⟩ :=
  ⟨by decide, (roomTypeLimit_default "garage" (by decide)).1⟩

/-! ## Concrete instances used by witnesses and counterexamples -/

/-- A decay function with a 500 m core: constant speed 1 over any distance
that occurs inside a room. Built through createVelocityFunction with exit
velocity 1, reference length 100 and jet constant 1. -/
noncomputable def bigCoreDecay : ℝ → ℝ :=
  createVelocityFunction "swirl" { d0 := some 100, aEff := 1, k1 := 1 } 1 100 1 500

theorem bigCoreDecay_eq_one (x : ℝ) (hx : x ≤ 500) : bigCoreDecay x = 1 := by
  have hns : ¬("swirl" = "slot") := by decide
  simp only [bigCoreDecay, createVelocityFunction, if_neg hns]
  split_ifs <;> rfl

/-- A supply jet result with the constant decay function. -/
noncomputable def jrS : JetResult :=
  { outletCategory := "supply"
    exitVelocity := 1
    throwDistance := 500
    throwDistanceFree := 500
    throwDistanceCoanda := none
    coreLength := 500
    halfAngle := 0
    archimedesNumber := 0
    detachmentPoint := none
    soundPowerLevel := some 40
    soundPressureAt3m := 0
    pressureDrop := 0
    maxVelocityOccupied := 0.1
    velocityAtDistance := bigCoreDecay
    effectiveArea := 1
    slotDirection := some "vertical" }

/-- An exhaust jet result with the constant decay function. -/
noncomputable def jrE : JetResult :=
  { jrS with outletCategory := "exhaust", soundPowerLevel := some 30
             maxVelocityOccupied := 0 }

/-- A wall-mounted vertical slot supply outlet at position x 0, height 3, z 0:
its jet direction is exactly straight down and no vertical Gaussian applies. -/
noncomputable def dS : OutletData :=
  { position3D := ⟨0, 3, 0⟩
    jetResult := some jrS
    typeKey := "slot"
    rotation := 0
    outletCategory := "supply"
    mounting := "wall"
    slotDirection := some "vertical" }

/-- The matching wall-mounted vertical exhaust slot outlet at the same spot. -/
noncomputable def dE : OutletData :=
  { dS with jetResult := some jrE, typeKey := "exhaustSlot", outletCategory := "exhaust" }

/-! ## Claim C10: jet directions are unit vectors -/

/-- Squared Euclidean length of a vector. -/
def normSq (v : Vec3) : ℝ := v.x * v.x + v.y * v.y + v.z * v.z

theorem normSq_normalize3 (x y z : ℝ) : normSq (normalize3 x y z) = 1 := by
  simp only [normalize3]
  split_ifs with h
  · simp [normSq]
  · have hlen : (0.001 : ℝ) ≤ Real.sqrt (x * x + y * y + z * z) := not_lt.1 h
    have hpos : (0 : ℝ) < Real.sqrt (x * x + y * y + z * z) := by linarith
    have hsq : Real.sqrt (x * x + y * y + z * z) * Real.sqrt (x * x + y * y + z * z)
        = x * x + y * y + z * z :=
      Real.mul_self_sqrt
        (by nlinarith [mul_self_nonneg x, mul_self_nonneg y, mul_self_nonneg z])
    simp only [normSq]
    field_simp
    linarith [hsq]

theorem normSq_getJetDirection (o : OutletData) (dx dy dz hd td : ℝ) :
    normSq (getJetDirection o dx dy dz hd td) = 1 := by
  simp only [getJetDirection]
  split_ifs <;> first
    | apply normSq_normalize3
    | (simp only [normSq]; norm_num)

/-- C10: every direction the per-type rule produces has Euclidean length
one, so a terminal's contribution, the direction scaled by the attenuated
speed, has magnitude exactly that speed. -/
theorem jetDirection_unit (o : OutletData) (dx dy dz hd td : ℝ) :
    normSq (getJetDirection o dx dy dz hd td) = 1 ∧
    ∀ s : ℝ,
      Real.sqrt (normSq ⟨(getJetDirection o dx dy dz hd td).x * s,
                         (getJetDirection o dx dy dz hd td).y * s,
                         (getJetDirection o dx dy dz hd td).z * s⟩) = |s| ∧
      (0 ≤ s →
        Real.sqrt (normSq ⟨(getJetDirection o dx dy dz hd td).x * s,
                           (getJetDirection o dx dy dz hd td).y * s,
                           (getJetDirection o dx dy dz hd td).z * s⟩) = s) := by
  have hunit := normSq_getJetDirection o dx dy dz hd td
  refine ⟨hunit, fun s => ?_⟩
  have hval : normSq ⟨(getJetDirection o dx dy dz hd td).x * s,
      (getJetDirection o dx dy dz hd td).y * s,
      (getJetDirection o dx dy dz hd td).z * s⟩ = s ^ 2 := by
    simp only [normSq] at hunit ⊢
    nlinarith [hunit]
  rw [hval, Real.sqrt_sq_eq_abs]
  exact ⟨rfl, fun hs => abs_of_nonneg hs⟩

/-- Witness for C10 at the vertical slot outlet, offset 1 0 0, speed 5. -/
theorem jetDirection_unit_witness :
    (0 : ℝ) ≤ 5 ∧
    Real.sqrt (normSq ⟨(getJetDirection dS 1 0 0 1 1).x * 5,
                       (getJetDirection dS 1 0 0 1 1).y * 5,
                       (getJetDirection dS 1 0 0 1 1).z * 5⟩) = 5 :=
  ⟨by norm_num, ((jetDirection_unit dS 1 0 0 1 1).2 5).2 (by norm_num)⟩

/-! ## Concrete rooms, outlets and entries for the comfort counterexamples -/

/-- A 10 by 10 by 3 room. -/
noncomputable def room10 : Room :=
  { length := 10, width := 10, height := 3, temperature := 24, roomType := "office" }

/-- A 1 by 1 by 3 room, small enough to enumerate heatmap cells. -/
noncomputable def room11 : Room :=
  { length := 1, width := 1, height := 3, temperature := 24, roomType := "office" }

/-- The outlet record behind the supply entry: a wall-mounted vertical
slot supply at x 0, height 3, z 0. -/
noncomputable def oS : Outlet :=
  { typeKey := "slot", sizeData := {}, volumeFlow := 0, mounting := "wall",
    slotDirection := some "vertical", outletCategory := some "supply",
    position3D := ⟨0, 3, 0⟩ }

/-- The outlet record behind the exhaust entry. -/
noncomputable def oE : Outlet :=
  { oS with typeKey := "exhaustSlot", outletCategory := some "exhaust" }

/-- The supply entry handed to evaluateComfort. -/
noncomputable def eS : Entry := { outlet := some oS, jetResult := some jrS }

/-- The exhaust entry handed to evaluateComfort. -/
noncomputable def eE : Entry := { outlet := some oE, jetResult := some jrE }

theorem jetDirection_dS (dx dy dz hd td : ℝ) (hhd : ¬hd < 0.01) :
    getJetDirection dS dx dy dz hd td = ⟨0, -1, 0⟩ := by
  unfold getJetDirection
  rw [if_neg (fun hc => hhd hc.1)]
  simp only [dS, jsOrS]
  rw [if_neg (by decide), if_pos (by decide), if_pos (by decide)]

theorem jetDirection_dE (dx dy dz hd td : ℝ) (hhd : ¬hd < 0.01) :
    getJetDirection dE dx dy dz hd td = ⟨0, -1, 0⟩ := by
  unfold getJetDirection
  rw [if_neg (fun hc => hhd hc.1)]
  simp only [dE, dS, jsOrS]
  rw [if_neg (by decide), if_pos (by decide), if_pos (by decide)]

theorem dS_jetResult : dS.jetResult = some jrS := rfl

theorem dS_position : dS.position3D = (⟨0, 3, 0⟩ : Vec3) := rfl

theorem dS_outletCategory : dS.outletCategory = "supply" := rfl

theorem dS_mounting : dS.mounting = "wall" := rfl

theorem dE_jetResult : dE.jetResult = some jrE := rfl

theorem dE_position : dE.position3D = (⟨0, 3, 0⟩ : Vec3) := rfl

theorem dE_outletCategory : dE.outletCategory = "exhaust" := rfl

theorem dE_mounting : dE.mounting = "wall" := rfl

theorem jrS_velocityAtDistance : jrS.velocityAtDistance = bigCoreDecay := rfl

theorem jrE_velocityAtDistance : jrE.velocityAtDistance = bigCoreDecay := rfl

theorem contribution_dS (wx wy wz : ℝ) (h1 : 0.25 ≤ wx * wx + wz * wz)
    (h2 : wx * wx + wz * wz ≤ 41) (h3 : 1.2 ≤ 3 - wy) (h4 : 3 - wy ≤ 2.9) :
    outletContribution wx wy wz dS = ⟨0, -1, 0⟩ := by
  have hS0 : (0 : ℝ) ≤ wx * wx + wz * wz := by linarith
  have hdsq : Real.sqrt (wx * wx + wz * wz) * Real.sqrt (wx * wx + wz * wz)
      = wx * wx + wz * wz := Real.mul_self_sqrt hS0
  have hd05 : (0.5 : ℝ) ≤ Real.sqrt (wx * wx + wz * wz) :=
    (Real.le_sqrt (by norm_num) hS0).2 (by nlinarith)
  have hT0 : (0 : ℝ) ≤ Real.sqrt (wx * wx + wz * wz) * Real.sqrt (wx * wx + wz * wz)
      + (wy - 3) * (wy - 3) := by rw [hdsq]; nlinarith
  have htd_lo : (1.2 : ℝ) ≤ Real.sqrt (Real.sqrt (wx * wx + wz * wz) *
      Real.sqrt (wx * wx + wz * wz) + (wy - 3) * (wy - 3)) :=
    (Real.le_sqrt (by norm_num) hT0).2 (by rw [hdsq]; nlinarith)
  have htd_hi : Real.sqrt (Real.sqrt (wx * wx + wz * wz) * Real.sqrt (wx * wx + wz * wz)
      + (wy - 3) * (wy - 3)) ≤ 500 := by
    have h49 : Real.sqrt (wx * wx + wz * wz) * Real.sqrt (wx * wx + wz * wz)
        + (wy - 3) * (wy - 3) ≤ 250000 := by rw [hdsq]; nlinarith
    calc Real.sqrt (Real.sqrt (wx * wx + wz * wz) * Real.sqrt (wx * wx + wz * wz)
          + (wy - 3) * (wy - 3)) ≤ Real.sqrt 250000 := Real.sqrt_le_sqrt h49
      _ = 500 := by
          rw [show (250000 : ℝ) = 500 ^ 2 by norm_num, Real.sqrt_sq (by norm_num)]
  have hGauss : ¬(¬("supply" : String) = "exhaust" ∧ ("wall" : String) = "ceiling" ∧
      Real.sqrt (wx * wx + wz * wz) > 0.1) := fun hg => absurd hg.2.1 (by decide)
  simp only [outletContribution, dS_jetResult, dS_position, dS_outletCategory, dS_mounting,
    jrS_velocityAtDistance, sub_zero]
  rw [if_neg (not_lt.2 (le_trans (by norm_num) htd_lo))]
  rw [if_neg hGauss]
  rw [bigCoreDecay_eq_one _ htd_hi]
  rw [if_neg (by norm_num : ¬(1 : ℝ) < 0.001)]
  rw [if_neg (by decide : ¬"supply" = "exhaust")]
  rw [jetDirection_dS _ _ _ _ _ (not_lt.2 (le_trans (by norm_num) hd05))]
  simp

theorem contribution_dE (wx wy wz : ℝ) (h1 : 0.25 ≤ wx * wx + wz * wz)
    (h2 : wx * wx + wz * wz ≤ 41) (h3 : 1.2 ≤ 3 - wy) (h4 : 3 - wy ≤ 2.9) :
    outletContribution wx wy wz dE = ⟨0, 1, 0⟩ := by
  have hS0 : (0 : ℝ) ≤ wx * wx + wz * wz := by linarith
  have hdsq : Real.sqrt (wx * wx + wz * wz) * Real.sqrt (wx * wx + wz * wz)
      = wx * wx + wz * wz := Real.mul_self_sqrt hS0
  have hd05 : (0.5 : ℝ) ≤ Real.sqrt (wx * wx + wz * wz) :=
    (Real.le_sqrt (by norm_num) hS0).2 (by nlinarith)
  have hT0 : (0 : ℝ) ≤ Real.sqrt (wx * wx + wz * wz) * Real.sqrt (wx * wx + wz * wz)
      + (wy - 3) * (wy - 3) := by rw [hdsq]; nlinarith
  have htd_lo : (1.2 : ℝ) ≤ Real.sqrt (Real.sqrt (wx * wx + wz * wz) *
      Real.sqrt (wx * wx + wz * wz) + (wy - 3) * (wy - 3)) :=
    (Real.le_sqrt (by norm_num) hT0).2 (by rw [hdsq]; nlinarith)
  have htd_hi : Real.sqrt (Real.sqrt (wx * wx + wz * wz) * Real.sqrt (wx * wx + wz * wz)
      + (wy - 3) * (wy - 3)) ≤ 500 := by
    have h49 : Real.sqrt (wx * wx + wz * wz) * Real.sqrt (wx * wx + wz * wz)
        + (wy - 3) * (wy - 3) ≤ 250000 := by rw [hdsq]; nlinarith
    calc Real.sqrt (Real.sqrt (wx * wx + wz * wz) * Real.sqrt (wx * wx + wz * wz)
          + (wy - 3) * (wy - 3)) ≤ Real.sqrt 250000 := Real.sqrt_le_sqrt h49
      _ = 500 := by
          rw [show (250000 : ℝ) = 500 ^ 2 by norm_num, Real.sqrt_sq (by norm_num)]
  have hGauss : ¬(¬True ∧ ("wall" : String) = "ceiling" ∧
      Real.sqrt (wx * wx + wz * wz) > 0.1) := fun hg => hg.1 trivial
  simp only [outletContribution, dE_jetResult, dE_position, dE_outletCategory, dE_mounting,
    jrE_velocityAtDistance, sub_zero]
  rw [if_neg (not_lt.2 (le_trans (by norm_num) htd_lo))]
  rw [if_neg hGauss]
  rw [bigCoreDecay_eq_one _ htd_hi]
  rw [if_neg (by norm_num : ¬(1 : ℝ) < 0.001)]
  rw [if_pos trivial]
  rw [jetDirection_dE _ _ _ _ _ (not_lt.2 (le_trans (by norm_num) hd05))]
  simp

theorem mag_dSdSdE (wx wy wz : ℝ) (h1 : 0.25 ≤ wx * wx + wz * wz)
    (h2 : wx * wx + wz * wz ≤ 41) (h3 : 1.2 ≤ 3 - wy) (h4 : 3 - wy ≤ 2.9) :
    getVelocityMagnitudeAt wx wy wz [dS, dS, dE] = 1 := by
  unfold getVelocityMagnitudeAt getVelocityVectorAt
  simp only [List.foldl_cons, List.foldl_nil,
    contribution_dS wx wy wz h1 h2 h3 h4, contribution_dE wx wy wz h1 h2 h3 h4]
  norm_num [Real.sqrt_one]

theorem mag_dSdS (wx wy wz : ℝ) (h1 : 0.25 ≤ wx * wx + wz * wz)
    (h2 : wx * wx + wz * wz ≤ 41) (h3 : 1.2 ≤ 3 - wy) (h4 : 3 - wy ≤ 2.9) :
    getVelocityMagnitudeAt wx wy wz [dS, dS] = 2 := by
  have h4eq : Real.sqrt 4 = 2 := by
    rw [show (4 : ℝ) = 2 ^ 2 by norm_num, Real.sqrt_sq (by norm_num)]
  unfold getVelocityMagnitudeAt getVelocityVectorAt
  simp only [List.foldl_cons, List.foldl_nil, contribution_dS wx wy wz h1 h2 h3 h4]
  norm_num [h4eq]

theorem occupiedGridPoints_room10_mem (p : ℝ × ℝ × ℝ)
    (hp : p ∈ occupiedGridPoints room10) :
    0.25 ≤ p.1 * p.1 + p.2.2 * p.2.2 ∧ p.1 * p.1 + p.2.2 * p.2.2 ≤ 41 ∧
    1.2 ≤ 3 - p.2.1 ∧ 3 - p.2.1 ≤ 2.9 := by
  have key : ∀ n : ℕ, n < 10 →
      0.25 ≤ (-(10 / 2) + ((n : ℝ) + 0.5) * (10 / 10)) *
        (-(10 / 2) + ((n : ℝ) + 0.5) * (10 / 10)) ∧
      (-(10 / 2) + ((n : ℝ) + 0.5) * (10 / 10)) *
        (-(10 / 2) + ((n : ℝ) + 0.5) * (10 / 10)) ≤ 20.25 := by
    intro n hn
    interval_cases n <;> norm_num
  unfold occupiedGridPoints at hp
  rw [List.mem_flatMap] at hp
  obtain ⟨wy, hwy, hp⟩ := hp
  rw [List.mem_flatMap] at hp
  obtain ⟨iz, hiz, hp⟩ := hp
  rw [List.mem_map] at hp
  obtain ⟨ix, hix, hpe⟩ := hp
  rw [List.mem_range] at hiz hix
  simp only [room10] at hpe
  simp only [List.mem_cons, List.not_mem_nil, or_false] at hwy
  obtain ⟨hxa, hxb⟩ := key ix hix
  obtain ⟨hza, hzb⟩ := key iz hiz
  subst hpe
  refine ⟨?_, ?_, ?_, ?_⟩
  · dsimp only
    linarith
  · dsimp only
    linarith
  · dsimp only
    rcases hwy with h | h | h <;> rw [h] <;> norm_num
  · dsimp only
    rcases hwy with h | h | h <;> rw [h] <;> norm_num

theorem occupiedGridPoints_room10_ne : occupiedGridPoints room10 ≠ [] := by
  intro h
  have hlen := congrArg List.length h
  simp [occupiedGridPoints, Function.comp_def, List.length_map, List.length_range,
    List.map_const', List.sum_replicate] at hlen

theorem outletDataOf_cs3 : outletDataOf [eS, eS, eE] = [dS, dS, dE] := by
  simp only [outletDataOf, eS, eE, oS, oE, dS, dE, jrS, jrE, entryCategory, jsOrOpt, jsOrS,
    jsOrR, List.filter_cons, List.filter_nil, Option.isSome_some, Option.bind_some,
    Option.map_some, List.map_cons, List.map_nil]
  norm_num
  decide

theorem outletDataOf_cs2 : outletDataOf [eS, eS] = [dS, dS] := by
  simp only [outletDataOf, eS, oS, dS, jrS, entryCategory, jsOrOpt, jsOrS,
    jsOrR, List.filter_cons, List.filter_nil, Option.isSome_some, Option.bind_some,
    Option.map_some, List.map_cons, List.map_nil]
  norm_num
  decide

theorem supplyOutletsOf_cs3 : supplyOutletsOf [eS, eS, eE] = [eS, eS] := by
  simp [supplyOutletsOf, entryCategory, eS, eE, oS, oE, jsOrOpt, List.filter_cons]

theorem supplyOutletsOf_cs2 : supplyOutletsOf [eS, eS] = [eS, eS] := by
  simp [supplyOutletsOf, entryCategory, eS, oS, jsOrOpt, List.filter_cons]

theorem usesGridPath_cs3 : usesGridPath [eS, eS, eE] room10 := by
  refine ⟨?_, by norm_num [room10], by norm_num [room10]⟩
  rw [supplyOutletsOf_cs3]
  norm_num

theorem usesGridPath_cs2 : usesGridPath [eS, eS] room10 := by
  refine ⟨?_, by norm_num [room10], by norm_num [room10]⟩
  rw [supplyOutletsOf_cs2]
  norm_num

theorem worstCase_cs3 : worstCaseVelocity [eS, eS, eE] room10 = 1 := by
  have hconst : ∀ p ∈ occupiedGridPoints room10,
      (fun p : ℝ × ℝ × ℝ => getVelocityMagnitudeAt p.1 p.2.1 p.2.2 [dS, dS, dE]) p = 1 := by
    intro p hp
    obtain ⟨b1, b2, b3, b4⟩ := occupiedGridPoints_room10_mem p hp
    exact mag_dSdSdE p.1 p.2.1 p.2.2 b1 b2 b3 b4
  have h := foldl_ifmax_const
    (fun p : ℝ × ℝ × ℝ => getVelocityMagnitudeAt p.1 p.2.1 p.2.2 [dS, dS, dE]) 1
    (occupiedGridPoints room10) hconst occupiedGridPoints_room10_ne 0
  rw [show max (0 : ℝ) 1 = 1 by norm_num] at h
  unfold worstCaseVelocity
  rw [if_pos usesGridPath_cs3, outletDataOf_cs3]
  exact h

theorem worstCase_cs2 : worstCaseVelocity [eS, eS] room10 = 2 := by
  have hconst : ∀ p ∈ occupiedGridPoints room10,
      (fun p : ℝ × ℝ × ℝ => getVelocityMagnitudeAt p.1 p.2.1 p.2.2 [dS, dS]) p = 2 := by
    intro p hp
    obtain ⟨b1, b2, b3, b4⟩ := occupiedGridPoints_room10_mem p hp
    exact mag_dSdS p.1 p.2.1 p.2.2 b1 b2 b3 b4
  have h := foldl_ifmax_const
    (fun p : ℝ × ℝ × ℝ => getVelocityMagnitudeAt p.1 p.2.1 p.2.2 [dS, dS]) 2
    (occupiedGridPoints room10) hconst occupiedGridPoints_room10_ne 0
  rw [show max (0 : ℝ) 2 = 2 by norm_num] at h
  unfold worstCaseVelocity
  rw [if_pos usesGridPath_cs2, outletDataOf_cs2]
  exact h

/-! ## calculateOutlet projection lemmas -/

theorem calculateOutlet_velocityAtDistance (o : Outlet) (room : Room) :
    (calculateOutlet o room).velocityAtDistance =
      createVelocityFunction o.typeKey o.sizeData (outletV0 o) (outletD0 o)
        o.sizeData.k1 (5 * outletD0 o) := by
  simp only [calculateOutlet]
  split_ifs <;> rfl

theorem calculateOutlet_coreLength (o : Outlet) (room : Room) :
    (calculateOutlet o room).coreLength = 5 * outletD0 o := by
  simp only [calculateOutlet]
  split_ifs <;> rfl

theorem calculateOutlet_throwDistanceFree (o : Outlet) (room : Room)
    (hsup : ¬o.outletCategory = some "exhaust") (hslot : ¬o.typeKey = "slot") :
    (calculateOutlet o room).throwDistanceFree
      = o.sizeData.k1 * outletV0 o * outletD0 o / 0.20 := by
  simp [calculateOutlet, hsup, hslot]

theorem calculateOutlet_throwDistance (o : Outlet) (room : Room)
    (hsup : ¬o.outletCategory = some "exhaust") :
    (calculateOutlet o room).throwDistance =
      if hasCoanda o then Real.sqrt 2 * (calculateOutlet o room).throwDistanceFree
      else (calculateOutlet o room).throwDistanceFree := by
  simp only [calculateOutlet, if_neg hsup]
  by_cases hc : hasCoanda o <;> simp [hc]

/-! ## Claim C4: Coanda multiplies the free throw by the square root of two -/

/-- C4: the Coanda condition is exactly catalog flag, ceiling mounting and
not a vertical slot; an active Coanda makes the effective throw the
square root of two times the free throw, an inactive one leaves it equal;
and for a positive free throw the multiplication characterizes activity. -/
theorem coandaThrow_spec (o : Outlet) (room : Room)
    (hsup : ¬o.outletCategory = some "exhaust") :
    (hasCoanda o = true ↔
      ((getType o.typeKey).map TypeInfo.coanda = some true ∧
        o.mounting = "ceiling" ∧ ¬(o.typeKey = "slot" ∧ o.slotDirection = some "vertical"))) ∧
    (hasCoanda o = true →
      (calculateOutlet o room).throwDistance
        = Real.sqrt 2 * (calculateOutlet o room).throwDistanceFree) ∧
    (hasCoanda o = false →
      (calculateOutlet o room).throwDistance = (calculateOutlet o room).throwDistanceFree) ∧
    (0 < (calculateOutlet o room).throwDistanceFree →
      ((calculateOutlet o room).throwDistance
          = Real.sqrt 2 * (calculateOutlet o room).throwDistanceFree
        ↔ hasCoanda o = true)) := by
  have hthrow := calculateOutlet_throwDistance o room hsup
  refine ⟨?_, fun hc => by rw [hthrow, if_pos hc], fun hc => ?_, ?_⟩
  · cases hg : getType o.typeKey with
    | none => simp [hasCoanda, hg]
    | some ti =>
      cases hco : ti.coanda with
      | false => simp [hasCoanda, hg, hco, Bool.and_eq_true, not_and_or, and_assoc]
      | true =>
        simp [hasCoanda, hg, hco, Bool.and_eq_true, not_and_or, and_assoc]
        tauto
  · have hcn : ¬hasCoanda o = true := by simp [hc]
    rw [hthrow, if_neg hcn]
  · intro hfree
    by_cases hc : hasCoanda o
    · rw [hthrow, if_pos hc]
      simp [hc]
    · rw [hthrow, if_neg hc]
      refine iff_of_false (fun heq => ?_) hc
      have hs2 : Real.sqrt 2 * Real.sqrt 2 = 2 := Real.mul_self_sqrt (by norm_num)
      have h1 : (Real.sqrt 2 - 1) * (calculateOutlet o room).throwDistanceFree = 0 := by
        linarith [heq]
      rcases mul_eq_zero.1 h1 with h | h
      · have hone : Real.sqrt 2 = 1 := by linarith
        rw [hone] at hs2
        norm_num at hs2
      · linarith

/-- A swirl DN 400 catalog size record. -/
noncomputable def szSwirlDN400 : SizeData :=
  { d0 := some 0.4, aEff := 0.064, lwRef := 39, vFlowRef := 500, k1 := 1.0,
    halfAngleDeg := some 50, kDrall := some 0.9 }

/-- A ceiling-mounted swirl DN 400 supply outlet at 500 cubic metres per hour. -/
noncomputable def o500 : Outlet :=
  { typeKey := "swirl", sizeData := szSwirlDN400, volumeFlow := 500, supplyTemp := 24,
    mounting := "ceiling", outletCategory := some "supply" }

/-- The 8 by 6 by 3.2 reference room. -/
noncomputable def room0 : Room :=
  { length := 8, width := 6, height := 3.2, temperature := 24, roomType := "office" }

theorem outletAeff_o500 : outletAeff o500 = 0.064 := by
  simp [outletAeff, o500, getEffectiveArea, szSwirlDN400]

theorem outletV0_o500 : outletV0 o500 = 625 / 288 := by
  rw [outletV0, outletAeff_o500]
  norm_num [o500]

theorem outletD0_o500 : outletD0 o500 = 0.4 := by
  simp [outletD0, o500, szSwirlDN400, jsOrR]
  norm_num

/-- Witness for C4 at the swirl DN 400 outlet, where Coanda is active. -/
theorem coandaThrow_witness :
    ¬o500.outletCategory = some "exhaust" ∧ hasCoanda o500 = true ∧
    (calculateOutlet o500 room0).throwDistance
      = Real.sqrt 2 * (calculateOutlet o500 room0).throwDistanceFree :=
  have hsup : ¬o500.outletCategory = some "exhaust" := by simp [o500]
  have hc : hasCoanda o500 = true := by rfl
  ⟨hsup, hc, (coandaThrow_spec o500 room0 hsup).2.1 hc⟩

/-! ## Claim C5: the decay function family -/

theorem createVelocityFunction_core (tk : String) (sd : SizeData) (v0 d0 k1 x : ℝ)
    (h1 : 0 < x) (h2 : x ≤ 5 * d0) :
    createVelocityFunction tk sd v0 d0 k1 (5 * d0) x = v0 := by
  have hx0 : ¬x ≤ 0 := not_le.2 h1
  unfold createVelocityFunction
  rcases eq_or_ne tk "slot" with h | h
  · rw [if_pos h]
    rw [if_neg hx0, if_pos h2]
  · rw [if_neg h]
    rw [if_neg hx0, if_pos h2]

theorem createVelocityFunction_round_far (tk : String) (sd : SizeData) (v0 d0 k1 x : ℝ)
    (hslot : ¬tk = "slot") (hd0 : 0 ≤ d0) (hx : 5 * d0 < x) :
    createVelocityFunction tk sd v0 d0 k1 (5 * d0) x = k1 * v0 * d0 / x := by
  have hx0 : ¬x ≤ 0 := by nlinarith
  have hxc : ¬x ≤ 5 * d0 := not_le.2 hx
  simp only [createVelocityFunction, if_neg hslot]
  rw [if_neg hx0, if_neg hxc]

theorem createVelocityFunction_slot_far (sd : SizeData) (v0 d0 k1 x : ℝ)
    (hd0 : 0 ≤ d0) (hx : 5 * d0 < x) :
    createVelocityFunction "slot" sd v0 d0 k1 (5 * d0) x
      = k1 * v0 * Real.sqrt (sd.slotWidth / x) := by
  have hx0 : ¬x ≤ 0 := by nlinarith
  have hxc : ¬x ≤ 5 * d0 := not_le.2 hx
  unfold createVelocityFunction
  rw [if_pos rfl]
  rw [if_neg hx0, if_neg hxc]

/-- C5: within the core length the decay function of a JetResult returns
exactly the exit velocity; beyond it the round family follows the linear
inverse law and the slot family the inverse-square-root law, and both are
strictly decreasing there for positive jet parameters. -/
theorem decayFunction_spec (o : Outlet) (room : Room) :
    ((calculateOutlet o room).coreLength = 5 * outletD0 o) ∧
    (∀ x : ℝ, 0 < x → x ≤ 5 * outletD0 o →
      (calculateOutlet o room).velocityAtDistance x = outletV0 o) ∧
    (¬o.typeKey = "slot" → 0 ≤ outletD0 o → ∀ x : ℝ, 5 * outletD0 o < x →
      (calculateOutlet o room).velocityAtDistance x
        = o.sizeData.k1 * outletV0 o * outletD0 o / x) ∧
    (o.typeKey = "slot" → 0 ≤ outletD0 o → ∀ x : ℝ, 5 * outletD0 o < x →
      (calculateOutlet o room).velocityAtDistance x
        = o.sizeData.k1 * outletV0 o * Real.sqrt (o.sizeData.slotWidth / x)) ∧
    (¬o.typeKey = "slot" → 0 < o.sizeData.k1 → 0 < outletV0 o → 0 < outletD0 o →
      ∀ x1 x2 : ℝ, 5 * outletD0 o < x1 → x1 < x2 →
        (calculateOutlet o room).velocityAtDistance x2
          < (calculateOutlet o room).velocityAtDistance x1) ∧
    (o.typeKey = "slot" → 0 < o.sizeData.k1 → 0 < outletV0 o → 0 < outletD0 o →
      0 < o.sizeData.slotWidth →
      ∀ x1 x2 : ℝ, 5 * outletD0 o < x1 → x1 < x2 →
        (calculateOutlet o room).velocityAtDistance x2
          < (calculateOutlet o room).velocityAtDistance x1) := by
  rw [calculateOutlet_velocityAtDistance]
  refine ⟨calculateOutlet_coreLength o room,
    fun x h1 h2 => createVelocityFunction_core _ _ _ _ _ _ h1 h2,
    fun hslot hd0 x hx => createVelocityFunction_round_far _ _ _ _ _ _ hslot hd0 hx,
    fun hslot hd0 x hx => by
      rw [hslot]; exact createVelocityFunction_slot_far _ _ _ _ _ hd0 hx,
    fun hslot hk1 hv0 hd0 x1 x2 hx1 hlt => ?_, fun hslot hk1 hv0 hd0 hs x1 x2 hx1 hlt => ?_⟩
  · rw [createVelocityFunction_round_far _ _ _ _ _ _ hslot (le_of_lt hd0) hx1,
      createVelocityFunction_round_far _ _ _ _ _ _ hslot (le_of_lt hd0)
        (lt_trans hx1 hlt)]
    have hx1p : 0 < x1 := by nlinarith
    exact div_lt_div_of_pos_left (by positivity) hx1p hlt
  · rw [hslot,
      createVelocityFunction_slot_far _ _ _ _ _ (le_of_lt hd0) hx1,
      createVelocityFunction_slot_far _ _ _ _ _ (le_of_lt hd0) (lt_trans hx1 hlt)]
    have hx1p : 0 < x1 := by nlinarith
    have hx2p : 0 < x2 := lt_trans hx1p hlt
    have hdiv : o.sizeData.slotWidth / x2 < o.sizeData.slotWidth / x1 :=
      div_lt_div_of_pos_left hs hx1p hlt
    have hsqrt := Real.sqrt_lt_sqrt (by positivity) hdiv
    have hkv : 0 < o.sizeData.k1 * outletV0 o := mul_pos hk1 hv0
    calc o.sizeData.k1 * outletV0 o * Real.sqrt (o.sizeData.slotWidth / x2)
        < o.sizeData.k1 * outletV0 o * Real.sqrt (o.sizeData.slotWidth / x1) := by
          exact mul_lt_mul_of_pos_left hsqrt hkv
    _ = o.sizeData.k1 * outletV0 o * Real.sqrt (o.sizeData.slotWidth / x1) := rfl

/-- Witness for C5 at the swirl DN 400 outlet: flat at the exit velocity
inside the 2 m core, strictly decreasing between 3 m and 4 m. -/
theorem decayFunction_witness :
    (calculateOutlet o500 room0).velocityAtDistance 1 = outletV0 o500 ∧
    (calculateOutlet o500 room0).velocityAtDistance 4
      < (calculateOutlet o500 room0).velocityAtDistance 3 :=
  have hcore : (1 : ℝ) ≤ 5 * outletD0 o500 := by rw [outletD0_o500]; norm_num
  have hslot : ¬o500.typeKey = "slot" := by simp [o500]
  have hk1 : 0 < o500.sizeData.k1 := by norm_num [o500, szSwirlDN400]
  have hv0 : 0 < outletV0 o500 := by rw [outletV0_o500]; norm_num
  have hd0 : 0 < outletD0 o500 := by rw [outletD0_o500]; norm_num
  have hx1 : 5 * outletD0 o500 < 3 := by rw [outletD0_o500]; norm_num
  ⟨(decayFunction_spec o500 room0).2.1 1 one_pos hcore,
    (decayFunction_spec o500 room0).2.2.2.2.1 hslot hk1 hv0 hd0 3 4 hx1 (by norm_num)⟩

/-! ## Claim C8: throw distance and decay function round-trip -/

/-- C8: for a supply round or radial terminal whose free throw exceeds the
core length, evaluating its decay function at the free throw distance
returns exactly the 0.20 m/s terminal velocity. -/
theorem throwRoundTrip_spec (o : Outlet) (room : Room)
    (hsup : ¬o.outletCategory = some "exhaust") (hslot : ¬o.typeKey = "slot")
    (hd0 : 0 < outletD0 o)
    (hcore : 5 * outletD0 o < (calculateOutlet o room).throwDistanceFree) :
    (calculateOutlet o room).velocityAtDistance ((calculateOutlet o room).throwDistanceFree)
      = 0.20 := by
  have hfree := calculateOutlet_throwDistanceFree o room hsup hslot
  rw [calculateOutlet_velocityAtDistance,
    createVelocityFunction_round_far _ _ _ _ _ _ hslot (le_of_lt hd0) hcore, hfree]
  have h5 : (0 : ℝ) < o.sizeData.k1 * outletV0 o * outletD0 o / 0.20 := by
    rw [hfree] at hcore
    nlinarith
  have h6 : o.sizeData.k1 * outletV0 o * outletD0 o / 0.20
      = 5 * (o.sizeData.k1 * outletV0 o * outletD0 o) := by ring
  have hc : (0 : ℝ) < o.sizeData.k1 * outletV0 o * outletD0 o := by
    rw [h6] at h5
    linarith
  rw [div_div_eq_mul_div, mul_comm, mul_div_assoc, div_self (ne_of_gt hc), mul_one]

/-- Witness for C8 at the swirl DN 400 outlet with 500 cubic metres per
hour: free throw about 4.34 m against a 2 m core length. -/
theorem throwRoundTrip_witness :
    5 * outletD0 o500 < (calculateOutlet o500 room0).throwDistanceFree ∧
    (calculateOutlet o500 room0).velocityAtDistance
      ((calculateOutlet o500 room0).throwDistanceFree) = 0.20 :=
  have hsup : ¬o500.outletCategory = some "exhaust" := by simp [o500]
  have hslot : ¬o500.typeKey = "slot" := by simp [o500]
  have hd0 : 0 < outletD0 o500 := by rw [outletD0_o500]; norm_num
  have hcore : 5 * outletD0 o500 < (calculateOutlet o500 room0).throwDistanceFree := by
    rw [calculateOutlet_throwDistanceFree o500 room0 hsup hslot, outletD0_o500,
      outletV0_o500]
    norm_num [o500, szSwirlDN400]
  ⟨hcore, throwRoundTrip_spec o500 room0 hsup hslot hd0 hcore⟩

/-! ## Claim C1: what exhaust terminals contribute to evaluateComfort -/

theorem fallbackFold_filter (outlets : List Entry) : ∀ m : ℝ,
    (outlets.filter (fun o => !(isExhaustEntry o))).foldl
      (fun m o =>
        match o.jetResult with
        | none => m
        | some jr =>
          if ¬isExhaustEntry o = true ∧ jr.maxVelocityOccupied > m then
            jr.maxVelocityOccupied
          else m) m
      = outlets.foldl
        (fun m o =>
          match o.jetResult with
          | none => m
          | some jr =>
            if ¬isExhaustEntry o = true ∧ jr.maxVelocityOccupied > m then
              jr.maxVelocityOccupied
            else m) m := by
  induction outlets with
  | nil => intro m; rfl
  | cons o rest ih =>
    intro m
    by_cases he : isExhaustEntry o = true
    · rw [List.filter_cons_of_neg (by simp [he]), List.foldl_cons]
      have hstep : (match o.jetResult with
          | none => m
          | some jr =>
            if ¬isExhaustEntry o = true ∧ jr.maxVelocityOccupied > m then
              jr.maxVelocityOccupied
            else m) = m := by
        cases hjr : o.jetResult with
        | none => rfl
        | some jr => simp [he]
      rw [hstep]
      exact ih m
    · rw [List.filter_cons_of_pos (by simp [he]), List.foldl_cons, List.foldl_cons]
      exact ih _

theorem worstCase_fallback_filter (outlets : List Entry) (room : Room)
    (hng : ¬usesGridPath outlets room) :
    worstCaseVelocity outlets room
      = worstCaseVelocity (outlets.filter (fun o => !(isExhaustEntry o))) room := by
  have hng2 : ¬usesGridPath (outlets.filter (fun o => !(isExhaustEntry o))) room := by
    intro hg
    obtain ⟨h1, hl, hw⟩ := hg
    exact hng ⟨lt_of_lt_of_le h1
      (List.Sublist.length_le (List.Sublist.filter _ (List.filter_sublist _))), hl, hw⟩
  unfold worstCaseVelocity
  rw [if_neg hng, if_neg hng2]
  exact (fallbackFold_filter outlets 0).symm

/-- C1, amended: the summed sound level always collects every present
sound power level, exhaust terminals included; and on the fallback path
removing all exhaust entries leaves the worst-case occupied-zone velocity
unchanged. (On the grid path exhaust outlets enter the vector-field
superposition as sinks, so removing them can change the reported
velocity; see the counterexample.) -/
theorem exhaustContribution_amended (outlets : List Entry) (room : Room) :
    (∀ o ∈ outlets, ∀ jr : JetResult, o.jetResult = some jr →
      ∀ l : ℝ, jr.soundPowerLevel = some l → l ∈ soundLevelsOf outlets) ∧
    ((evaluateComfort outlets room).totalSoundLevel = totalSoundLevelOf outlets) ∧
    (¬usesGridPath outlets room →
      (evaluateComfort outlets room).maxVelocityOccupied
        = (evaluateComfort (outlets.filter (fun o => !(isExhaustEntry o)))
            room).maxVelocityOccupied) := by
  refine ⟨?_, rfl, ?_⟩
  · intro o ho jr hjr l hl
    exact List.mem_filterMap.2 ⟨o, ho, by rw [hjr]; simpa using hl⟩
  · intro hng
    rw [evaluateComfort_maxVelocityOccupied, evaluateComfort_maxVelocityOccupied]
    exact worstCase_fallback_filter outlets room hng

/-- Witness for the amended C1: a single exhaust entry takes the fallback
path, and the reported velocity survives its own removal. -/
theorem exhaustContribution_witness :
    ¬usesGridPath [eE] room10 ∧
    (evaluateComfort [eE] room10).maxVelocityOccupied
      = (evaluateComfort ([eE].filter (fun o => !(isExhaustEntry o)))
          room10).maxVelocityOccupied :=
  have hng : ¬usesGridPath [eE] room10 := by
    intro hg
    obtain ⟨h1, _, _⟩ := hg
    rw [show supplyOutletsOf [eE] = [] by
      simp [supplyOutletsOf, entryCategory, eE, oE, jrE, jrS, jsOrOpt]] at h1
    simp at h1
  ⟨hng, (exhaustContribution_amended [eE] room10).2.2 hng⟩

/-- Counterexample to C1 as stated: with two wall-mounted vertical slot
supplies and one co-located vertical exhaust slot in a 10 by 10 room, the
grid path runs, the exhaust suction cancels one supply jet, and the
worst-case occupied-zone velocity drops from 2 to 1 when the exhaust is
present — removing all exhaust entries does change the reported velocity. -/
theorem exhaustContribution_counterexample :
    (evaluateComfort ([eS, eS, eE].filter (fun o => !(isExhaustEntry o)))
        room10).maxVelocityOccupied
      ≠ (evaluateComfort [eS, eS, eE] room10).maxVelocityOccupied := by
  have hfilter : [eS, eS, eE].filter (fun o => !(isExhaustEntry o)) = [eS, eS] := by
    simp [List.filter_cons, isExhaustEntry, eS, eE, oS, oE, jrS, jrE]
  rw [hfilter, evaluateComfort_maxVelocityOccupied, evaluateComfort_maxVelocityOccupied,
    worstCase_cs2, worstCase_cs3]
  norm_num

/-! ## Claim C3: the two-path worst-case velocity -/

theorem ifgt_eq_max (a b : ℝ) : (if b > a then b else a) = max a b := by
  rcases lt_or_le a b with h | h
  · rw [if_pos h]; exact (max_eq_right h.le).symm
  · rw [if_neg (not_lt.2 h)]; exact (max_eq_left h).symm

theorem foldl_ifmax_eq_specMax {α : Type} (f : α → ℝ) (l : List α)
    (h : ∀ x ∈ l, 0 ≤ f x) :
    l.foldl (fun m x => if f x > m then f x else m) 0 = specMax (l.map f) := by
  rw [foldl_ifmax_eq, ← List.foldl_map]
  refine foldl_max_zero_eq_specMax _ ?_
  intro y hy
  obtain ⟨x, hx, hfx⟩ := List.mem_map.1 hy
  exact hfx ▸ h x hx

theorem fallbackFold_eq_max (outlets : List Entry) : ∀ m : ℝ,
    outlets.foldl
      (fun m o =>
        match o.jetResult with
        | none => m
        | some jr =>
          if ¬isExhaustEntry o = true ∧ jr.maxVelocityOccupied > m then
            jr.maxVelocityOccupied
          else m) m
    = ((outlets.filter (fun o => !(isExhaustEntry o))).filterMap
        (fun o => o.jetResult.map JetResult.maxVelocityOccupied)).foldl
        (fun a v => max a v) m := by
  induction outlets with
  | nil => intro m; rfl
  | cons o rest ih =>
    intro m
    rw [List.foldl_cons]
    by_cases he : isExhaustEntry o = true
    · rw [List.filter_cons_of_neg (by simp [he])]
      have hstep : (match o.jetResult with
          | none => m
          | some jr =>
            if ¬isExhaustEntry o = true ∧ jr.maxVelocityOccupied > m then
              jr.maxVelocityOccupied
            else m) = m := by
        cases hjr : o.jetResult with
        | none => rfl
        | some jr => simp [he]
      rw [hstep]
      exact ih m
    · rw [List.filter_cons_of_pos (by simp [he])]
      rcases Option.eq_none_or_eq_some o.jetResult with hjr | ⟨jr, hjr⟩
      · have hstep : (match o.jetResult with
            | none => m
            | some jr =>
              if ¬isExhaustEntry o = true ∧ jr.maxVelocityOccupied > m then
                jr.maxVelocityOccupied
              else m) = m := by rw [hjr]
        rw [hstep, List.filterMap_cons_none (by simp [hjr])]
        exact ih m
      · have hcond : (¬isExhaustEntry o = true ∧ jr.maxVelocityOccupied > m) ↔
            jr.maxVelocityOccupied > m := by simp [he]
        have hstep : (match o.jetResult with
            | none => m
            | some jrr =>
              if ¬isExhaustEntry o = true ∧ jrr.maxVelocityOccupied > m then
                jrr.maxVelocityOccupied
              else m) = max m jr.maxVelocityOccupied := by
          rw [hjr]
          show (if ¬isExhaustEntry o = true ∧ jr.maxVelocityOccupied > m then
            jr.maxVelocityOccupied else m) = max m jr.maxVelocityOccupied
          rw [if_congr hcond rfl rfl]
          exact ifgt_eq_max m jr.maxVelocityOccupied
        rw [hstep]
        simp only [List.filterMap_cons, hjr, Option.map_some']
        rw [List.foldl_cons]
        exact ih (max m jr.maxVelocityOccupied)

/-- The worst-case occupied-zone velocity as the claim words it, for the
refinement comparison: the maximum vector-field magnitude over the 10 by
10 by 3 sample grid when more than one supply terminal and the room size
are known, otherwise the maximum per-terminal occupied-zone estimate over
the non-exhaust terminals. -/
noncomputable def specOccupiedVelocity (outlets : List Entry) (room : Room) : ℝ :=
  if usesGridPath outlets room then
    specMax ((occupiedGridPoints room).map
      (fun p => getVelocityMagnitudeAt p.1 p.2.1 p.2.2 (outletDataOf outlets)))
  else
    specMax ((outlets.filter (fun o => !(isExhaustEntry o))).filterMap
      (fun o => o.jetResult.map JetResult.maxVelocityOccupied))

/-- C3: evaluateComfort computes its worst-case occupied-zone velocity by
exactly the two paths the claim describes — the grid maximum of the
vector-field magnitudes when more than one supply terminal and the room
size are known, and the maximum of the non-exhaust per-terminal estimates
otherwise (per-terminal estimates are nonnegative for every jet result
the model produces, which the hypothesis records). -/
theorem evaluateComfort_twoPath (outlets : List Entry) (room : Room)
    (hnn : ∀ o ∈ outlets, ∀ jr : JetResult, o.jetResult = some jr →
      0 ≤ jr.maxVelocityOccupied) :
    (evaluateComfort outlets room).maxVelocityOccupied
      = specOccupiedVelocity outlets room := by
  rw [evaluateComfort_maxVelocityOccupied]
  unfold worstCaseVelocity specOccupiedVelocity
  by_cases hg : usesGridPath outlets room
  · rw [if_pos hg, if_pos hg]
    exact foldl_ifmax_eq_specMax _ _ (fun p _ => getVelocityMagnitudeAt_nonneg _ _ _ _)
  · rw [if_neg hg, if_neg hg]
    refine Eq.trans (fallbackFold_eq_max outlets 0) ?_
    refine foldl_max_zero_eq_specMax _ ?_
    intro y hy
    obtain ⟨o, ho, hmap⟩ := List.mem_filterMap.1 hy
    obtain ⟨jr, hjr, hval⟩ := Option.map_eq_some'.1 hmap
    exact hval ▸ hnn o (List.mem_of_mem_filter ho) jr hjr

/-- Witness for C3 at two supply entries and one exhaust entry in the 10
by 10 room: the grid path runs, and the nonnegativity hypothesis is
discharged for each of the three concrete jet results. -/
theorem evaluateComfort_twoPath_witness :
    (evaluateComfort [eS, eS, eE] room10).maxVelocityOccupied
      = specOccupiedVelocity [eS, eS, eE] room10 := by
  refine evaluateComfort_twoPath [eS, eS, eE] room10 ?_
  intro o ho jr hjr
  simp only [List.mem_cons, List.not_mem_nil, or_false] at ho
  rcases ho with h | h | h <;> subst h
  · have hj : jr = jrS := Option.some_inj.1 hjr.symm
    subst hj
    norm_num [jrS]
  · have hj : jr = jrS := Option.some_inj.1 hjr.symm
    subst hj
    norm_num [jrS]
  · have hj : jr = jrE := Option.some_inj.1 hjr.symm
    subst hj
    norm_num [jrE, jrS]

/-! ## Claim C2: velocity heatmap against the vector field -/

/-- The x coordinate of heatmap cell column ix. -/
noncomputable def cellX (room : Room) (gs : ℝ) (ix : ℕ) : ℝ :=
  -(room.length / 2) + (ix : ℝ) * gs

/-- The z coordinate of heatmap cell row iz. -/
noncomputable def cellZ (room : Room) (gs : ℝ) (iz : ℕ) : ℝ :=
  -(room.width / 2) + (iz : ℝ) * gs

/-- The horizontal distance from an outlet to a point, as both samplers
compute it. -/
noncomputable def horizontalDistTo (o : OutletData) (x z : ℝ) : ℝ :=
  Real.sqrt ((x - o.position3D.x) * (x - o.position3D.x) +
    (z - o.position3D.z) * (z - o.position3D.z))

/-- The 3D distance from an outlet to a point, as both samplers compute it. -/
noncomputable def totalDistTo (o : OutletData) (x y z : ℝ) : ℝ :=
  Real.sqrt (horizontalDistTo o x z * horizontalDistTo o x z +
    (y - o.position3D.y) * (y - o.position3D.y))

/-- The per-outlet attenuated speed both samplers compute for a
non-exhaust outlet: the decayed speed at the 3D distance, with the
vertical Gaussian for a ceiling outlet beyond 0.1 m horizontally. -/
noncomputable def attenuatedSpeed (o : OutletData) (jr : JetResult) (x y z : ℝ) : ℝ :=
  let dy := y - o.position3D.y
  let hd := horizontalDistTo o x z
  let s := jr.velocityAtDistance (Real.sqrt (hd * hd + dy * dy))
  if o.mounting = "ceiling" ∧ hd > 0.1 then
    s * Real.exp (-(dy * dy) / (2 * (0.12 * hd) * (0.12 * hd)))
  else s

theorem heatmapCellValue_single (o : OutletData) (jr : JetResult) (room : Room)
    (gs ph : ℝ) (ix iz : ℕ) (hjr : o.jetResult = some jr) :
    heatmapCellValue [o] room gs ph ix iz
      = max 0 (attenuatedSpeed o jr (cellX room gs ix) ph (cellZ room gs iz)) := by
  unfold heatmapCellValue attenuatedSpeed cellX cellZ horizontalDistTo
  simp only [List.foldl_cons, List.foldl_nil, hjr]
  rw [abs_mul_abs_self]

theorem heatmapCellValue_pair (o : OutletData) (jr : JetResult) (room : Room)
    (gs ph : ℝ) (ix iz : ℕ) (hjr : o.jetResult = some jr) :
    heatmapCellValue [o, o] room gs ph ix iz
      = max (max 0 (attenuatedSpeed o jr (cellX room gs ix) ph (cellZ room gs iz)))
          (attenuatedSpeed o jr (cellX room gs ix) ph (cellZ room gs iz)) := by
  unfold heatmapCellValue attenuatedSpeed cellX cellZ horizontalDistTo
  simp only [List.foldl_cons, List.foldl_nil, hjr]
  rw [abs_mul_abs_self]

theorem horizontalDistTo_def (o : OutletData) (x z : ℝ) :
    Real.sqrt ((x - o.position3D.x) * (x - o.position3D.x) +
      (z - o.position3D.z) * (z - o.position3D.z)) = horizontalDistTo o x z := rfl

theorem totalDistTo_def (o : OutletData) (x y z : ℝ) :
    Real.sqrt (horizontalDistTo o x z * horizontalDistTo o x z +
      (y - o.position3D.y) * (y - o.position3D.y)) = totalDistTo o x y z := rfl

theorem attenuatedSpeed_def (o : OutletData) (jr : JetResult) (x y z : ℝ) :
    (if o.mounting = "ceiling" ∧ horizontalDistTo o x z > 0.1 then
      jr.velocityAtDistance (totalDistTo o x y z) *
        Real.exp (-((y - o.position3D.y) * (y - o.position3D.y)) /
          (2 * (0.12 * horizontalDistTo o x z) * (0.12 * horizontalDistTo o x z)))
    else jr.velocityAtDistance (totalDistTo o x y z)) = attenuatedSpeed o jr x y z := rfl

theorem magnitude_single (o : OutletData) (jr : JetResult) (x y z : ℝ)
    (hjr : o.jetResult = some jr)
    (hsup : ¬o.outletCategory = "exhaust")
    (hdist : ¬totalDistTo o x y z < 0.01)
    (hspeed : ¬attenuatedSpeed o jr x y z < 0.001) :
    getVelocityMagnitudeAt x y z [o] = attenuatedSpeed o jr x y z := by
  have hs0 : (0 : ℝ) ≤ attenuatedSpeed o jr x y z :=
    le_trans (by norm_num) (not_lt.1 hspeed)
  unfold getVelocityMagnitudeAt getVelocityVectorAt
  simp only [List.foldl_cons, List.foldl_nil]
  unfold outletContribution
  simp only [hjr]
  rw [abs_mul_abs_self, horizontalDistTo_def, totalDistTo_def]
  have hcond : (¬o.outletCategory = "exhaust" ∧ o.mounting = "ceiling" ∧
      horizontalDistTo o x z > 0.1) ↔ (o.mounting = "ceiling" ∧
      horizontalDistTo o x z > 0.1) := by simp [hsup]
  rw [if_congr hcond rfl rfl, attenuatedSpeed_def, if_neg hdist, if_neg hspeed,
    if_neg hsup]
  simp only [zero_add]
  have hval : ((getJetDirection o (x - o.position3D.x) (y - o.position3D.y)
        (z - o.position3D.z) (horizontalDistTo o x z) (totalDistTo o x y z)).x *
          attenuatedSpeed o jr x y z) *
      ((getJetDirection o (x - o.position3D.x) (y - o.position3D.y)
        (z - o.position3D.z) (horizontalDistTo o x z) (totalDistTo o x y z)).x *
          attenuatedSpeed o jr x y z) +
      ((getJetDirection o (x - o.position3D.x) (y - o.position3D.y)
        (z - o.position3D.z) (horizontalDistTo o x z) (totalDistTo o x y z)).y *
          attenuatedSpeed o jr x y z) *
      ((getJetDirection o (x - o.position3D.x) (y - o.position3D.y)
        (z - o.position3D.z) (horizontalDistTo o x z) (totalDistTo o x y z)).y *
          attenuatedSpeed o jr x y z) +
      ((getJetDirection o (x - o.position3D.x) (y - o.position3D.y)
        (z - o.position3D.z) (horizontalDistTo o x z) (totalDistTo o x y z)).z *
          attenuatedSpeed o jr x y z) *
      ((getJetDirection o (x - o.position3D.x) (y - o.position3D.y)
        (z - o.position3D.z) (horizontalDistTo o x z) (totalDistTo o x y z)).z *
          attenuatedSpeed o jr x y z)
      = attenuatedSpeed o jr x y z ^ 2 := by
    have h := normSq_getJetDirection o (x - o.position3D.x) (y - o.position3D.y)
      (z - o.position3D.z) (horizontalDistTo o x z) (totalDistTo o x y z)
    simp only [normSq] at h
    nlinarith [h]
  rw [hval, Real.sqrt_sq hs0]

theorem sqrt_msq_add_le_500 (A B : ℝ)
    (hB : Real.sqrt A * Real.sqrt A + B ≤ 250000) :
    Real.sqrt (Real.sqrt A * Real.sqrt A + B) ≤ 500 := by
  calc Real.sqrt (Real.sqrt A * Real.sqrt A + B) ≤ Real.sqrt 250000 :=
        Real.sqrt_le_sqrt hB
    _ = 500 := by rw [show (250000 : ℝ) = 500 ^ 2 by norm_num, Real.sqrt_sq (by norm_num)]

theorem atten_dS_val : attenuatedSpeed dS jrS (-0.5) 1.2 (-0.5) = 1 := by
  unfold attenuatedSpeed horizontalDistTo
  simp only [dS_position, dS_mounting, jrS_velocityAtDistance]
  split_ifs with h
  · exact absurd h.1 (by decide)
  · exact bigCoreDecay_eq_one _ (sqrt_msq_add_le_500 _ _
      (by rw [Real.mul_self_sqrt (by norm_num)]; norm_num))

theorem tdist_dS_val : ¬totalDistTo dS (-0.5) 1.2 (-0.5) < 0.01 := by
  unfold totalDistTo horizontalDistTo
  simp only [dS_position]
  apply not_lt.2
  refine le_trans (by norm_num : (0.01 : ℝ) ≤ 1.2) ?_
  refine (Real.le_sqrt (by norm_num) ?_).2 ?_
  · nlinarith [Real.sqrt_nonneg ((-0.5 - (0 : ℝ)) * (-0.5 - 0) + (-0.5 - 0) * (-0.5 - 0)),
      mul_self_nonneg ((1.2 : ℝ) - 3)]
  · rw [Real.mul_self_sqrt (by norm_num)]
    norm_num

/-- C2, amended: a velocity-heatmap cell agrees with the vector-field
magnitude for a single non-exhaust outlet whose 3D distance to the cell
is at least 1 cm and whose attenuated speed there is at least 1 mm/s —
the two attenuation models coincide per outlet. With several outlets
they differ by construction: the heatmap takes the maximum of the
per-outlet speeds while the vector field takes the magnitude of the
vector sum; see the counterexample. -/
theorem heatmapVectorField_amended (o : OutletData) (jr : JetResult) (room : Room)
    (gs ph : ℝ) (ix iz : ℕ)
    (hjr : o.jetResult = some jr)
    (hsup : ¬o.outletCategory = "exhaust")
    (hdist : ¬totalDistTo o (cellX room gs ix) ph (cellZ room gs iz) < 0.01)
    (hspeed : ¬attenuatedSpeed o jr (cellX room gs ix) ph (cellZ room gs iz) < 0.001) :
    heatmapCellValue [o] room gs ph ix iz
      = getVelocityMagnitudeAt (cellX room gs ix) ph (cellZ room gs iz) [o] := by
  rw [heatmapCellValue_single o jr room gs ph ix iz hjr,
    magnitude_single o jr _ _ _ hjr hsup hdist hspeed]
  exact max_eq_right (le_trans (by norm_num) (not_lt.1 hspeed))

/-- Witness for the amended C2 at a single vertical slot supply outlet
and the corner cell of the small room. -/
theorem heatmapVectorField_witness :
    heatmapCellValue [dS] room11 0.5 1.2 0 0
      = getVelocityMagnitudeAt (cellX room11 0.5 0) 1.2 (cellZ room11 0.5 0) [dS] := by
  have hcx : cellX room11 0.5 0 = -0.5 := by simp only [cellX, room11]; norm_num
  have hcz : cellZ room11 0.5 0 = -0.5 := by simp only [cellZ, room11]; norm_num
  refine heatmapVectorField_amended dS jrS room11 0.5 1.2 0 0 rfl ?_ ?_ ?_
  · rw [dS_outletCategory]; decide
  · rw [hcx, hcz]; exact tdist_dS_val
  · rw [hcx, hcz, atten_dS_val]; norm_num

theorem heatmap_cs_head :
    (generateVelocityHeatmap [dS, dS] room11 0.5 1.2).grid.head?.getD 0
      = heatmapCellValue [dS, dS] room11 0.5 1.2 0 0 := by
  unfold generateVelocityHeatmap
  simp only [room11]
  rw [show ((⌈(1 : ℝ) / 0.5⌉).toNat + 1) = 3 by
    rw [show ⌈(1 : ℝ) / 0.5⌉ = 2 by norm_num]
    decide]
  rw [show List.range 3 = [0, 1, 2] by decide]
  simp [List.flatMap_cons, List.flatMap_nil, List.map_cons, List.map_nil,
    List.cons_append, List.head?]

/-- Counterexample to C2 as stated: with two identical co-located supply
outlets, the heatmap cell takes the maximum of the two speeds (1) while
the vector field sums the two downward jets (magnitude 2), so the cell
does not equal the superposed magnitude at the same point. -/
theorem heatmapVectorField_counterexample :
    (generateVelocityHeatmap [dS, dS] room11 0.5 1.2).grid.head?.getD 0
      ≠ getVelocityMagnitudeAt (cellX room11 0.5 0) 1.2 (cellZ room11 0.5 0) [dS, dS] := by
  have hcx : cellX room11 0.5 0 = -0.5 := by simp only [cellX, room11]; norm_num
  have hcz : cellZ room11 0.5 0 = -0.5 := by simp only [cellZ, room11]; norm_num
  have hcell : heatmapCellValue [dS, dS] room11 0.5 1.2 0 0 = 1 := by
    rw [heatmapCellValue_pair dS jrS room11 0.5 1.2 0 0 rfl, hcx, hcz, atten_dS_val]
    norm_num
  have hmag : getVelocityMagnitudeAt (cellX room11 0.5 0) 1.2 (cellZ room11 0.5 0)
      [dS, dS] = 2 := by
    rw [hcx, hcz]
    exact mag_dSdS (-0.5) 1.2 (-0.5) (by norm_num) (by norm_num) (by norm_num) (by norm_num)
  rw [heatmap_cs_head, hcell, hmag]
  norm_num

end HVAC
